import Mathlib

/-!
mq-container: readiness check and metric verification scenarios

Shallow embedding of

* `cmd/chkmqready/main.go`: the standalone readiness check,
* `test/docker/mqmetric_test.go`: the metric verification scenarios and the two
  metric-shape validators they contain.

The outside world (the readiness flag, the network, the Docker helpers of the
test package) is an explicit parameter of every definition; every effect a
definition performs is recorded in a trace.
-/

set_option autoImplicit false

/-! ## Part 1: `chkmqready` -/

namespace chkmqready

/-- A Go `error` value that is not nil, reduced to its message. -/
abbrev GoError := String

/-- A `net.Conn` handle, reduced to an identifier. -/
abbrev Conn := Nat

/-- The outside world of one run of `chkmqready`: what `ready.Check()` returns
(package `internal/ready` is an import of `main.go`; its result is taken as
given), what `net.Dial` returns for each network and address, and how many
earlier runs the host has seen (state the program has no access to). -/
structure World where
  readyCheck : Bool × Option GoError
  dial : String → String → Except GoError Conn
  earlierRuns : Nat

/-- Effects a run performs, in program order. -/
inductive Effect where
  | readyCheck
  | dialFailed (network address : String)
  | dialOk (network address : String) (conn : Conn)
  | write (conn : Conn)
  | read (conn : Conn)
  | close (conn : Conn)
  deriving DecidableEq, Repr

/-- What is observable of a finished run: the process exit code and the
effects performed. -/
structure Run where
  exitCode : Nat
  trace : List Effect
  deriving DecidableEq, Repr

/-- Embedding of `func main()` in `cmd/chkmqready/main.go`.
`os.Exit(1)` ends the run with code 1; falling off the end of `main` ends it
with code 0. -/
def main (w : World) : Run :=
  -- r, err := ready.Check()
  match w.readyCheck with
  | (r, err) =>
    -- if !r || err != nil { os.Exit(1) }
    if !r || err.isSome then
      { exitCode := 1, trace := [Effect.readyCheck] }
    else
      -- conn, err := net.Dial("tcp", "127.0.0.1:1414")
      match w.dial "tcp" "127.0.0.1:1414" with
      | Except.error _ =>
        -- if err != nil { os.Exit(1) }
        { exitCode := 1,
          trace := [Effect.readyCheck, Effect.dialFailed "tcp" "127.0.0.1:1414"] }
      | Except.ok conn =>
        -- conn.Close()
        { exitCode := 0,
          trace := [Effect.readyCheck, Effect.dialOk "tcp" "127.0.0.1:1414" conn,
                    Effect.close conn] }

/-- The dial to the fixed listener address succeeds in world `w`. -/
def dialSucceeds (w : World) : Bool :=
  match w.dial "tcp" "127.0.0.1:1414" with
  | Except.ok _ => true
  | Except.error _ => false

/-- The effect is a dial, successful or not. -/
def Effect.isDial : Effect → Bool
  | Effect.dialFailed _ _ => true
  | Effect.dialOk _ _ _ => true
  | _ => false

/-- A world with the flag set and the listener up. -/
def readyWorld : World :=
  { readyCheck := (true, none), dial := fun _ _ => Except.ok 7, earlierRuns := 0 }

/-- A world whose flag query fails although it reports `true`, listener up. -/
def erroredWorld : World :=
  { readyCheck := (true, some "stat: permission denied"),
    dial := fun _ _ => Except.ok 7, earlierRuns := 3 }

/-- A world with the flag set and the listener up, in which every other
address is unreachable and earlier runs are on record. -/
def readyWorldLater : World :=
  { readyCheck := (true, none),
    dial := fun _ a => if a = "127.0.0.1:1414" then Except.ok 7 else Except.error "refused",
    earlierRuns := 5 }

end chkmqready

/-! ## Part 2: the metric-shape validators of `mqmetric_test.go` -/

namespace mqmetric

/-- A Go `string`: a sequence of bytes. -/
abbrev GoString := List UInt8

/-- The bytes of a string literal of the source. -/
def goString (s : String) : GoString := s.toUTF8.data.toList

/-- Go's `strings.HasSuffix`:
`len(s) >= len(suffix) && s[len(s)-len(suffix):] == suffix`. -/
def HasSuffix (s suffix : GoString) : Bool :=
  decide (suffix.length ≤ s.length) && (s.drop (s.length - suffix.length) == suffix)

/-- Modelled from the spec: the type `mqmetric` of the scraped samples, declared
in a file of the test package that is not part of the sources; the scenarios
read its fields `Key` and `Labels`. `Labels` is a Go map from label name to
label value; it is held as the list of its entries in the order in which a
`range` over it visits them, which the language leaves unspecified. -/
structure MetricSample where
  Key : GoString
  Labels : List (GoString × GoString)
  deriving DecidableEq, Repr

/-- Label names of a sample, in iteration order. -/
def MetricSample.labelNames (m : MetricSample) : List GoString :=
  m.Labels.map Prod.fst

/-- One line of test output, kept structured instead of formatted. -/
inductive LogLine where
  | text (msg : String)
  | badSuffix (key : GoString)
  | missingLabel (key : GoString) (labels : List (GoString × GoString))
      (required : List GoString)
  | execFailed (what : String) (rc : Int) (out : String)
  deriving DecidableEq, Repr

/-- The slice `approvedSuffixes` of `TestMetricNames`. -/
def approvedSuffixes : List GoString :=
  [goString "bytes", goString "seconds", goString "percentage", goString "count",
   goString "total"]

/-- The slice `requiredLabels` of `TestMetricLabels`. -/
def requiredLabels : List GoString := [goString "qmgr"]

/-- The inner loop of `TestMetricNames`, lines 77-82:
`for _, e := range approvedSuffixes { if strings.HasSuffix(metric.Key, e) { ok = true; break } }`
as a function from the value of `ok` before the loop to its value after. -/
def suffixScan (key : GoString) : List GoString → Bool → Bool
  | [], ok => ok
  | e :: es, ok => if HasSuffix key e then true else suffixScan key es ok

/-- The variables the loop of `TestMetricNames` writes: the two slices, the
failed mark of `t` and the output of `t`. -/
structure NamesState where
  okMetrics : List GoString
  badMetrics : List GoString
  failed : Bool
  output : List LogLine
  deriving DecidableEq, Repr

/-- The loop of `TestMetricNames`, lines 75-91, over the scraped samples. -/
def namesLoop (approved : List GoString) : List MetricSample → NamesState → NamesState
  | [], st => st
  | metric :: rest, st =>
    -- ok := false; inner loop
    let ok := suffixScan metric.Key approved false
    if !ok then
      -- t.Logf(...); badMetrics = append(badMetrics, metric.Key); t.Fail()
      namesLoop approved rest
        { st with output := st.output ++ [LogLine.badSuffix metric.Key],
                  badMetrics := st.badMetrics ++ [metric.Key],
                  failed := true }
    else
      -- okMetrics = append(okMetrics, metric.Key)
      namesLoop approved rest { st with okMetrics := st.okMetrics ++ [metric.Key] }

/-- State at line 72-73: both slices empty, `t` as it is. -/
def namesInit (failed : Bool) (output : List LogLine) : NamesState :=
  { okMetrics := [], badMetrics := [], failed := failed, output := output }

/-- The innermost loop of `TestMetricLabels`, lines 120-125:
`for _, e := range requiredLabels { if key == e { found = true; break } }`. -/
def requiredScan (key : GoString) : List GoString → Bool → Bool
  | [], found => found
  | e :: es, found => if key == e then true else requiredScan key es found

/-- The loop over the labels of one sample, lines 119-129:
`for key := range metric.Labels { inner loop; if found { break } }`. -/
def labelScan (required : List GoString) : List (GoString × GoString) → Bool → Bool
  | [], found => found
  | (key, _) :: rest, found =>
    let found := requiredScan key required found
    if found then found else labelScan required rest found

/-- The verdict `found` on one sample at line 131. -/
def labelFound (required : List GoString) (metric : MetricSample) : Bool :=
  labelScan required metric.Labels false

/-- What the loop of `TestMetricLabels` writes: the failed mark and the output
of `t`. -/
structure LabelsState where
  failed : Bool
  output : List LogLine
  deriving DecidableEq, Repr

/-- The loop of `TestMetricLabels`, lines 117-134. `t.Errorf` logs and marks
the test failed, and the loop goes on. -/
def labelsLoop (required : List GoString) : List MetricSample → LabelsState → LabelsState
  | [], st => st
  | metric :: rest, st =>
    if !labelFound required metric then
      labelsLoop required rest
        { failed := true,
          output := st.output ++ [LogLine.missingLabel metric.Key metric.Labels required] }
    else
      labelsLoop required rest st

/-- The samples of the spec's suffix example. -/
def exampleNames : List MetricSample :=
  [{ Key := goString "request_seconds", Labels := [] },
   { Key := goString "queue_depth", Labels := [] }]

/-- The sample of the spec's label example. -/
def exampleLabelled : MetricSample :=
  { Key := goString "queue_depth", Labels := [(goString "instance", goString "qm1")] }

end mqmetric

/-! ## Part 3: the verification scenarios of `mqmetric_test.go` -/

namespace mqmetric

/-- A container id as returned by `runContainerWithPorts`. -/
abbrev ContainerID := String

/-- A host port as returned by `getMetricPort`. -/
abbrev Port := String

/-- What the outside world answers to one call made by a scenario. The helpers
`runContainerWithPorts`, `getMetricPort`, `waitForMetricReady`, `getMetrics`,
`stopContainer`, `startContainer` and `execContainer` are functions of the test
package that take `t`; their bodies are not part of the sources, so a call may
do anything a function holding `t` can do: return a value, mark the test failed
and return (`t.Error`), or mark it failed and leave the test goroutine
(`t.Fatal`, `aborts`). Every call reads the fields it needs. -/
structure Outcome where
  fails : Bool
  aborts : Bool
  err : Option String
  id : ContainerID
  port : Port
  metrics : List MetricSample
  rc : Int
  out : String

/-- The outside world of one scenario run: the answer to the n-th call. -/
abbrev Env := Nat → Outcome

/-- The value a `getMetrics` call returns, together with its origin: `call` is
the number of the call that produced it (calls of a run are numbered from 0),
`samples` is the Go slice. -/
structure Scrape where
  call : Nat
  samples : List MetricSample
  deriving DecidableEq, Repr

/-- Effects of a scenario run, in program order. Helper events record the
arguments of the call and, when the call returned, what it returned.
`getMetrics port call r` is the scrape made by call number `call`.
`lenCheck scrape n` records that the scenario evaluated `len(metrics) <= 0` on
the result, of length `n`, of the scrape made by call number `scrape`;
`validate scrape` records that the scenario ran a validator loop over the result
of that scrape. A scrape whose result is dropped is the subject of no such
event. `sleep n` is `time.Sleep` of `n` seconds. -/
inductive Event where
  | parallel
  | newEnvClient (err : Option String)
  | runContainerWithPorts (returned : Option ContainerID)
  | getMetricPort (id : ContainerID) (returned : Option Port)
  | waitForMetricReady (port : Port) (returned : Bool)
  | getMetrics (port : Port) (call : Nat) (returned : Option (List MetricSample))
  | lenCheck (scrape : Nat) (len : Nat)
  | validate (scrape : Nat)
  | sleep (seconds : Nat)
  | stopContainer (id : ContainerID) (returned : Bool)
  | startContainer (id : ContainerID) (returned : Bool)
  | execContainer (id : ContainerID) (user : String) (cmd : List String)
      (returned : Option Int)
  | cleanContainer (id : ContainerID)
  deriving DecidableEq, Repr

/-- A call registered with `defer`, its arguments already evaluated. -/
inductive Deferred where
  | cleanContainer (id : ContainerID)
  deriving DecidableEq, Repr

/-- State of a running test function: the failed mark and the output of `t`,
the number of calls answered so far, the effects so far and the stack of
deferred calls (last registered first). -/
structure TState where
  failed : Bool
  output : List LogLine
  calls : Nat
  trace : List Event
  deferred : List Deferred

/-- How a piece of test code ends: it returns a value, or it leaves the test
goroutine (`runtime.Goexit`, as `t.FailNow` does). -/
inductive Step (α : Type) where
  | ret (a : α) (s : TState)
  | goexit (s : TState)

/-- Test code: a function of the outside world and the test state. -/
abbrev TestM (α : Type) := Env → TState → Step α

instance : Monad TestM where
  pure a := fun _ s => Step.ret a s
  bind m f := fun env s =>
    match m env s with
    | Step.ret a s1 => f a env s1
    | Step.goexit s1 => Step.goexit s1

/-- Record an effect. -/
def emit (e : Event) (s : TState) : TState := { s with trace := s.trace ++ [e] }

/-- A call of a helper that holds `t`. The world answers. If the helper aborts,
the test is marked failed and the test goroutine is left (event `aborted`);
otherwise the test is marked failed if the helper says so and the call returns
its value (event `returned`). Events and value may depend on the number of the
call. -/
def helper {α : Type} (aborted : Nat → Event) (returned : Nat → Outcome → Event)
    (value : Nat → Outcome → α) : TestM α :=
  fun env s =>
    let o := env s.calls
    if o.aborts then
      Step.goexit { s with calls := s.calls + 1, failed := true,
                           trace := s.trace ++ [aborted s.calls] }
    else
      Step.ret (value s.calls o)
        { s with calls := s.calls + 1, failed := s.failed || o.fails,
                 trace := s.trace ++ [returned s.calls o] }

/-- Go `t.Parallel()`. -/
def tParallel : TestM Unit := fun _ s => Step.ret () (emit Event.parallel s)

/-- Go `t.Log(...)` and `t.Logf(...)`. -/
def tLog (l : LogLine) : TestM Unit :=
  fun _ s => Step.ret () { s with output := s.output ++ [l] }

/-- Go `t.Fail()`: mark failed, go on. -/
def tFail : TestM Unit := fun _ s => Step.ret () { s with failed := true }

/-- Go `t.FailNow()`: mark failed, leave the test goroutine. -/
def tFailNow : TestM Unit := fun _ s => Step.goexit { s with failed := true }

/-- Go `t.Error(...)`: `Log` followed by `Fail`. -/
def tError (l : LogLine) : TestM Unit :=
  fun _ s => Step.ret () { s with output := s.output ++ [l], failed := true }

/-- Go `t.Fatal(...)`: `Log` followed by `FailNow`. -/
def tFatal (l : LogLine) : TestM Unit :=
  fun _ s => Step.goexit { s with output := s.output ++ [l], failed := true }

/-- Go `client.NewEnvClient()`, a library call without access to `t`; returns the
error, if any. -/
def NewEnvClient : TestM (Option String) :=
  fun env s =>
    Step.ret (env s.calls).err
      { s with calls := s.calls + 1,
               trace := s.trace ++ [Event.newEnvClient (env s.calls).err] }

/-- Go `runContainerWithPorts(t, cli, metricsContainerConfig(), []int{defaultMetricPort})`. -/
def runContainerWithPorts : TestM ContainerID :=
  helper (fun _ => Event.runContainerWithPorts none)
    (fun _ o => Event.runContainerWithPorts (some o.id)) (fun _ o => o.id)

/-- Go `defer f(args)`: push the call. -/
def defer (d : Deferred) : TestM Unit :=
  fun _ s => Step.ret () { s with deferred := d :: s.deferred }

/-- Go `getMetricPort(t, cli, id)`. -/
def getMetricPort (id : ContainerID) : TestM Port :=
  helper (fun _ => Event.getMetricPort id none)
    (fun _ o => Event.getMetricPort id (some o.port)) (fun _ o => o.port)

/-- Go `waitForMetricReady(t, port)`. -/
def waitForMetricReady (port : Port) : TestM Unit :=
  helper (fun _ => Event.waitForMetricReady port false)
    (fun _ _ => Event.waitForMetricReady port true) (fun _ _ => ())

/-- Go `getMetrics(t, port)`; the value returned remembers the call it comes
from. -/
def getMetrics (port : Port) : TestM Scrape :=
  helper (fun n => Event.getMetrics port n none)
    (fun n o => Event.getMetrics port n (some o.metrics))
    (fun n o => { call := n, samples := o.metrics })

/-- The test `len(metrics) <= 0` on a scrape result; which scrape was inspected
is recorded. -/
def lenLE0 (metrics : Scrape) : TestM Bool :=
  fun _ s =>
    Step.ret (decide (metrics.samples.length ≤ 0))
      (emit (Event.lenCheck metrics.call metrics.samples.length) s)

/-- Go `time.Sleep(n * time.Second)`. -/
def sleep (n : Nat) : TestM Unit := fun _ s => Step.ret () (emit (Event.sleep n) s)

/-- Go `stopContainer(t, cli, id)`. -/
def stopContainer (id : ContainerID) : TestM Unit :=
  helper (fun _ => Event.stopContainer id false) (fun _ _ => Event.stopContainer id true)
    (fun _ _ => ())

/-- Go `startContainer(t, cli, id)`. -/
def startContainer (id : ContainerID) : TestM Unit :=
  helper (fun _ => Event.startContainer id false) (fun _ _ => Event.startContainer id true)
    (fun _ _ => ())

/-- Go `execContainer(t, cli, id, user, cmd)`: returns `rc` and `out`. -/
def execContainer (id : ContainerID) (user : String) (cmd : List String) :
    TestM (Int × String) :=
  helper (fun _ => Event.execContainer id user cmd none)
    (fun _ o => Event.execContainer id user cmd (some o.rc)) (fun _ o => (o.rc, o.out))

/-- Modelled from the spec: the helper `cleanContainer(t, cli, id)`, whose body
is outside the sources. The spec makes it the cleanup/removal step that leaves
the container stopped and removed on every path (guaranteed cleanup) and names
start, stop and exec, not removal, as the container operations whose failure is
fatal to a scenario. So the call returns; what it does to the container is
read off its event by `Event.onContainer`; as a function holding `t` it may
mark the test failed. -/
def cleanContainer (id : ContainerID) : TestM Unit :=
  fun env s =>
    Step.ret ()
      { s with calls := s.calls + 1, failed := s.failed || (env s.calls).fails,
               trace := s.trace ++ [Event.cleanContainer id] }

/-- A `for i := 0; i < n; i++ { body }` whose body does not read `i`. -/
def forN : Nat → TestM Unit → TestM Unit
  | 0, _ => pure ()
  | n + 1, body => do body; forN n body

/-- The loop of `TestMetricNames` (lines 72-91) run on the state of `t`; which
scrape it ranged over is recorded. -/
def namesLoopM (approved : List GoString) (metrics : Scrape) : TestM NamesState :=
  fun _ s =>
    let r := namesLoop approved metrics.samples (namesInit s.failed s.output)
    Step.ret r { s with failed := r.failed, output := r.output,
                        trace := s.trace ++ [Event.validate metrics.call] }

/-- The loop of `TestMetricLabels` (lines 117-134) run on the state of `t`;
which scrape it ranged over is recorded. -/
def labelsLoopM (required : List GoString) (metrics : Scrape) : TestM Unit :=
  fun _ s =>
    let r := labelsLoop required metrics.samples { failed := s.failed, output := s.output }
    Step.ret () { s with failed := r.failed, output := r.output,
                         trace := s.trace ++ [Event.validate metrics.call] }

/-- Modelled from the spec: the constant `defaultMetricQMName` of the test
package, the name of the queue manager, which is declared outside the sources
and whose value the spec leaves open; the value plays no part in what follows. -/
def defaultMetricQMName : String := "qm1"

/-- The state a step ends in. -/
def Step.state {α : Type} : Step α → TState
  | Step.ret _ s => s
  | Step.goexit s => s

/-- Run a deferred call. -/
def Deferred.run : Deferred → TestM Unit
  | Deferred.cleanContainer id => mqmetric.cleanContainer id

/-- Run the deferred calls, last registered first; a deferred call that leaves
the goroutine does not keep the remaining ones from running. -/
def runDeferred : List Deferred → Env → TState → TState
  | [], _, s => s
  | d :: ds, env, s => runDeferred ds env (d.run env s).state

/-- Leave a test function: run what it deferred. -/
def unwind (env : Env) (s : TState) : TState :=
  runDeferred s.deferred env { s with deferred := [] }

/-- State of `t` when a test function is entered. -/
def TState.init : TState :=
  { failed := false, output := [], calls := 0, trace := [], deferred := [] }

/-- Run a test function: its body, then, however the body ended (return or
`runtime.Goexit`), its deferred calls. -/
def runTest (body : TestM Unit) (env : Env) : TState :=
  unwind env (body env TState.init).state

/-- The test passed: it ended without the failed mark. -/
def TState.passed (s : TState) : Bool := !s.failed

/-- Embedding of `func TestGoldenPathMetric(t *testing.T)`. -/
def TestGoldenPathMetric : TestM Unit := do
  tParallel
  let err ← NewEnvClient
  if err.isSome then
    tFatal (LogLine.text (err.getD ""))
  let id ← runContainerWithPorts
  defer (Deferred.cleanContainer id)
  let port ← getMetricPort id
  -- Now the container is ready we prod the prometheus endpoint until it's up.
  waitForMetricReady port
  -- Call once as mq_prometheus 'ignores' the first call
  let _ ← getMetrics port
  sleep 15
  let metrics ← getMetrics port
  if (← lenLE0 metrics) then
    tLog (LogLine.text "Expected some metrics to be returned but had none...")
    tFail
  -- Stop the container cleanly
  stopContainer id

/-- Embedding of `func TestMetricNames(t *testing.T)`. -/
def TestMetricNames : TestM Unit := do
  tParallel
  let err ← NewEnvClient
  if err.isSome then
    tFatal (LogLine.text (err.getD ""))
  let id ← runContainerWithPorts
  defer (Deferred.cleanContainer id)
  let port ← getMetricPort id
  waitForMetricReady port
  -- Call once as mq_prometheus 'ignores' the first call
  let _ ← getMetrics port
  sleep 15
  let metrics ← getMetrics port
  if (← lenLE0 metrics) then
    tLog (LogLine.text "Expected some metrics to be returned but had none...")
    tFail
  let _ ← namesLoopM approvedSuffixes metrics
  -- Stop the container cleanly
  stopContainer id

/-- Embedding of `func TestMetricLabels(t *testing.T)`. -/
def TestMetricLabels : TestM Unit := do
  tParallel
  let err ← NewEnvClient
  if err.isSome then
    tFatal (LogLine.text (err.getD ""))
  let id ← runContainerWithPorts
  defer (Deferred.cleanContainer id)
  let port ← getMetricPort id
  waitForMetricReady port
  -- Call once as mq_prometheus 'ignores' the first call
  let _ ← getMetrics port
  sleep 15
  let metrics ← getMetrics port
  if (← lenLE0 metrics) then
    tError (LogLine.text "Expected some metrics to be returned but had none")
  labelsLoopM requiredLabels metrics
  -- Stop the container cleanly
  stopContainer id

/-- Embedding of `func TestRapidFirePrometheus(t *testing.T)`. -/
def TestRapidFirePrometheus : TestM Unit := do
  tParallel
  let err ← NewEnvClient
  if err.isSome then
    tFatal (LogLine.text (err.getD ""))
  let id ← runContainerWithPorts
  defer (Deferred.cleanContainer id)
  let port ← getMetricPort id
  waitForMetricReady port
  -- Call once as mq_prometheus 'ignores' the first call
  let _ ← getMetrics port
  -- Rapid fire it then check we're still happy
  forN 30 (do
    let _ ← getMetrics port
    sleep 1)
  sleep 11
  let metrics ← getMetrics port
  if (← lenLE0 metrics) then
    tError (LogLine.text "Expected some metrics to be returned but had none")
  -- Stop the container cleanly
  stopContainer id

/-- Embedding of `func TestSlowPrometheus(t *testing.T)`. -/
def TestSlowPrometheus : TestM Unit := do
  tParallel
  let err ← NewEnvClient
  if err.isSome then
    tFatal (LogLine.text (err.getD ""))
  let id ← runContainerWithPorts
  defer (Deferred.cleanContainer id)
  let port ← getMetricPort id
  waitForMetricReady port
  -- Call once as mq_prometheus 'ignores' the first call
  let _ ← getMetrics port
  -- Send a request twice over a long period and check we're still happy
  forN 2 (do
    sleep 30
    let metrics ← getMetrics port
    if (← lenLE0 metrics) then
      tLog (LogLine.text "Expected some metrics to be returned but had none")
      tFail)
  -- Stop the container cleanly
  stopContainer id

/-- Embedding of `func TestContainerRestart(t *testing.T)`. -/
def TestContainerRestart : TestM Unit := do
  tParallel
  let err ← NewEnvClient
  if err.isSome then
    tFatal (LogLine.text (err.getD ""))
  let id ← runContainerWithPorts
  defer (Deferred.cleanContainer id)
  let port ← getMetricPort id
  waitForMetricReady port
  -- Call once as mq_prometheus 'ignores' the first call
  let _ ← getMetrics port
  sleep 15
  let metrics ← getMetrics port
  if (← lenLE0 metrics) then
    tLog (LogLine.text "Expected some metrics to be returned before the restart but had none...")
    tFailNow
  -- Stop the container cleanly
  stopContainer id
  -- Start the container cleanly
  startContainer id
  let port ← getMetricPort id
  waitForMetricReady port
  -- Call once as mq_prometheus 'ignores' the first call
  let _ ← getMetrics port
  sleep 15
  let metrics ← getMetrics port
  if (← lenLE0 metrics) then
    tLog (LogLine.text "Expected some metrics to be returned before the restart but had none...")
    tFail

/-- Embedding of `func TestQMRestart(t *testing.T)`. -/
def TestQMRestart : TestM Unit := do
  tParallel
  let err ← NewEnvClient
  if err.isSome then
    tFatal (LogLine.text (err.getD ""))
  let id ← runContainerWithPorts
  defer (Deferred.cleanContainer id)
  let port ← getMetricPort id
  waitForMetricReady port
  -- Call once as mq_prometheus 'ignores' the first call
  let _ ← getMetrics port
  sleep 15
  let metrics ← getMetrics port
  if (← lenLE0 metrics) then
    tLog (LogLine.text "Expected some metrics to be returned before the restart but had none...")
    tFailNow
  -- Restart just the QM (to simulate a lost connection)
  tLog (LogLine.text "Stopping queue manager\n")
  let (rc, out) ← execContainer id "mqm" ["endmqm", "-w", defaultMetricQMName]
  if rc ≠ 0 then
    tLog (LogLine.execFailed "Failed to stop the queue manager." rc out)
    tFailNow
  tLog (LogLine.text "starting queue manager\n")
  let (rc, out) ← execContainer id "mqm" ["strmqm", defaultMetricQMName]
  if rc ≠ 0 then
    tLog (LogLine.execFailed "Failed to start the queue manager." rc out)
    tFailNow
  -- Wait for the queue manager to come back up
  sleep 10
  waitForMetricReady port
  -- Call once as mq_prometheus 'ignores' the first call
  let _ ← getMetrics port
  sleep 15
  let metrics ← getMetrics port
  if (← lenLE0 metrics) then
    tLog (LogLine.text "Expected some metrics to be returned before the restart but had none...")
    tFailNow
  -- Stop the container cleanly
  stopContainer id

/-- Embedding of `func TestValidValues(t *testing.T)`: empty. -/
def TestValidValues : TestM Unit := pure ()

/-- Embedding of `func TestChangingValues(t *testing.T)`: empty. -/
def TestChangingValues : TestM Unit := pure ()

/-- The test functions of `mqmetric_test.go`. -/
def scenarios : List (TestM Unit) :=
  [TestGoldenPathMetric, TestMetricNames, TestMetricLabels, TestRapidFirePrometheus,
   TestSlowPrometheus, TestContainerRestart, TestQMRestart, TestValidValues,
   TestChangingValues]

end mqmetric

/-! ## Part 4: reading a trace; sample worlds -/

namespace mqmetric

/-- The scrape an effect asserts on, by its call number: `lenCheck` and
`validate` have a subject, no other effect has. -/
def Event.subject : Event → Option Nat
  | Event.lenCheck c _ => some c
  | Event.validate c => some c
  | _ => none

/-- The effect is the `len(metrics) <= 0` test on the scrape of call `c`. -/
def Event.isLenCheckOf (c : Nat) : Event → Bool
  | Event.lenCheck c1 _ => c1 == c
  | _ => false

/-- The call number of a scrape; `none` for any other effect. -/
def Event.scrapeCall : Event → Option Nat
  | Event.getMetrics _ c _ => some c
  | _ => none

/-- Call numbers of the scrapes of a trace, in order. -/
def scrapeCalls (tr : List Event) : List Nat := tr.filterMap Event.scrapeCall

/-- Seconds slept in a run of effects. -/
def sleepTotal : List Event → Nat
  | [] => 0
  | Event.sleep n :: rest => n + sleepTotal rest
  | _ :: rest => sleepTotal rest

/-- No effect of `tr` asserts on the scrape of call `c`. -/
def neverInspected (c : Nat) (tr : List Event) : Bool :=
  tr.all (fun e => e.subject != some c)

/-- Checker for the settle interval. `slept` seconds have gone by since the
discard scrape; every scrape met from here on whose result is later tested for
non-emptiness must come when at least 15 seconds have gone by. -/
def settleOK : Nat → List Event → Bool
  | _, [] => true
  | slept, Event.sleep n :: rest => settleOK (slept + n) rest
  | slept, Event.getMetrics _ c _ :: rest =>
      (decide (15 ≤ slept) || !(rest.any (Event.isLenCheckOf c))) && settleOK slept rest
  | slept, _ :: rest => settleOK slept rest

/-- What has to follow a `waitForMetricReady` that returned, in a run with the
effects `whole`: at once a `getMetrics` that no effect of the run asserts on,
and then the settle interval. -/
def afterWaitOK (whole : List Event) : List Event → Bool
  | Event.getMetrics _ c _ :: rest => neverInspected c whole && settleOK 0 rest
  | _ => false

/-- Checker for the discard-scrape law along the trace of a run with the
effects `whole`. -/
def discardLaw (whole : List Event) : List Event → Bool
  | [] => true
  | Event.waitForMetricReady _ true :: post => afterWaitOK whole post && discardLaw whole post
  | _ :: post => discardLaw whole post

/-- Checker: the numbers are strictly increasing and all above `lo`. -/
def increasingFrom : Option Nat → List Nat → Bool
  | _, [] => true
  | none, c :: rest => increasingFrom (some c) rest
  | some lo, c :: rest => decide (lo < c) && increasingFrom (some c) rest

/-- The effect is a call of `cleanContainer` for `id`. -/
def Event.isCleanOf (id : ContainerID) : Event → Bool
  | Event.cleanContainer i => i == id
  | _ => false

/-- Checker for guaranteed cleanup along a whole trace: whenever
`runContainerWithPorts` returned an id, the last effect of the run is
`cleanContainer` for that id. -/
def cleanedAfterCreate : List Event → Bool
  | [] => true
  | Event.runContainerWithPorts (some id) :: post =>
      post.getLast?.any (Event.isCleanOf id) && cleanedAfterCreate post
  | _ :: post => cleanedAfterCreate post

/-- Modelled from the spec: the states of a container. The spec gives the
lifecycle as Created/Started, Stopped, Removed; a container that is removed is
stopped and gone. -/
inductive ContainerStatus where
  | running
  | stopped
  | removed
  deriving DecidableEq, Repr

/-- Modelled from the spec: what a helper call that returned does to the
container `id`; the helpers are outside the sources. `runContainerWithPorts`
creates and starts the container it returns, `stopContainer` stops it,
`startContainer` starts it, `cleanContainer` leaves it stopped and removed. A
call that aborted, and a call for another container, leave the state as it
is. -/
def Event.onContainer (id : ContainerID) (st : Option ContainerStatus) :
    Event → Option ContainerStatus
  | Event.runContainerWithPorts (some i) => if i = id then some ContainerStatus.running else st
  | Event.stopContainer i true => if i = id then some ContainerStatus.stopped else st
  | Event.startContainer i true => if i = id then some ContainerStatus.running else st
  | Event.cleanContainer i => if i = id then some ContainerStatus.removed else st
  | _ => st

/-- The state of container `id` after the effects of a trace; `none` when the
container was never created. -/
def containerStatus (id : ContainerID) (tr : List Event) : Option ContainerStatus :=
  tr.foldl (Event.onContainer id) none

/-- The scrape results a scenario tested for non-emptiness: the results of the
`getMetrics` calls that are the subject of a later `len(metrics) <= 0` test. -/
def assertedScrapes : List Event → List (List MetricSample)
  | [] => []
  | Event.getMetrics _ c (some ms) :: rest =>
      if rest.any (Event.isLenCheckOf c) then ms :: assertedScrapes rest
      else assertedScrapes rest
  | _ :: rest => assertedScrapes rest

/-- A scrape passes the approved-suffix validator of `TestMetricNames`. -/
def suffixValid (ms : List MetricSample) : Bool :=
  (namesLoop approvedSuffixes ms (namesInit false [])).badMetrics.isEmpty

/-- A scrape passes the required-label validator of `TestMetricLabels`. -/
def labelValid (ms : List MetricSample) : Bool :=
  !(labelsLoop requiredLabels ms { failed := false, output := [] }).failed

/-- The effects of a run of `TestContainerRestart` in which every call returns
and both tested scrapes have a sample, in terms of what the calls returned: the
container id, the port before and after the restart, and the four scrape
results. Calls 4 and 10 are the discard scrapes, calls 5 and 11 the scrapes
tested for non-emptiness; `stopContainer` and `startContainer` lie between call
5 and call 10. -/
def restartTrace (id : ContainerID) (port1 port2 : Port)
    (discard1 asserted1 discard2 asserted2 : List MetricSample) : List Event :=
  [Event.parallel, Event.newEnvClient none, Event.runContainerWithPorts (some id),
   Event.getMetricPort id (some port1), Event.waitForMetricReady port1 true,
   Event.getMetrics port1 4 (some discard1), Event.sleep 15,
   Event.getMetrics port1 5 (some asserted1), Event.lenCheck 5 asserted1.length,
   Event.stopContainer id true, Event.startContainer id true,
   Event.getMetricPort id (some port2), Event.waitForMetricReady port2 true,
   Event.getMetrics port2 10 (some discard2), Event.sleep 15,
   Event.getMetrics port2 11 (some asserted2), Event.lenCheck 11 asserted2.length,
   Event.cleanContainer id]

/-- The three trace checkers hold of the trace a test ended with. -/
def ShapeOK (s : TState) : Prop :=
  discardLaw s.trace s.trace = true ∧ increasingFrom none (scrapeCalls s.trace) = true ∧
    cleanedAfterCreate s.trace = true

/-- A test that passed in the world `env` performed the effects of
`restartTrace` on the answers of `env`, and both tested scrapes had a sample. -/
def RestartOK (env : Env) (s : TState) : Prop :=
  s.passed = true →
    s.trace = restartTrace (env 1).id (env 2).port (env 8).port (env 4).metrics
        (env 5).metrics (env 10).metrics (env 11).metrics ∧
      (env 5).metrics ≠ [] ∧ (env 11).metrics ≠ []

/-- Continue with `k` after a step that returned; leave the test function after
one that did not. `runTest` written with explicit continuations. -/
def after {α : Type} (m : TestM α) (env : Env) (s : TState) (k : α → TState → TState) :
    TState :=
  match m env s with
  | Step.ret a s1 => k a s1
  | Step.goexit s1 => unwind env s1

/-- A sample as the exporter produces them. -/
def goodSample : MetricSample :=
  { Key := goString "ibmmq_qmgr_commit_count",
    Labels := [(goString "qmgr", goString "qm1")] }

/-- The answer of a world in which every call succeeds. -/
def happyOutcome : Outcome :=
  { fails := false, aborts := false, err := none, id := "c1", port := "32768",
    metrics := [goodSample], rc := 0, out := "" }

/-- Every call succeeds and every scrape returns one well-formed sample. -/
def happyEnv : Env := fun _ => happyOutcome

/-- Every call succeeds, but the seventh, `endmqm` run in the container by
`TestQMRestart`, returns the exit code 2. -/
def endmqmFailsEnv : Env :=
  fun n => if n = 6 then { happyOutcome with rc := 2, out := "AMQ8146E" } else happyOutcome

/-- Effects of `TestGoldenPathMetric` in `happyEnv` up to its `waitForMetricReady`. -/
def goldenPre : List Event :=
  [Event.parallel, Event.newEnvClient none, Event.runContainerWithPorts (some "c1"),
   Event.getMetricPort "c1" (some "32768")]

/-- Effects of `TestGoldenPathMetric` in `happyEnv` after its `waitForMetricReady`. -/
def goldenPost : List Event :=
  [Event.getMetrics "32768" 4 (some [goodSample]), Event.sleep 15,
   Event.getMetrics "32768" 5 (some [goodSample]), Event.lenCheck 5 1,
   Event.stopContainer "c1" true, Event.cleanContainer "c1"]

/-- Effects of `TestQMRestart` in `endmqmFailsEnv` after the container was
created, up to the cleanup. -/
def qmRestartMid : List Event :=
  [Event.getMetricPort "c1" (some "32768"), Event.waitForMetricReady "32768" true,
   Event.getMetrics "32768" 4 (some [goodSample]), Event.sleep 15,
   Event.getMetrics "32768" 5 (some [goodSample]), Event.lenCheck 5 1,
   Event.execContainer "c1" "mqm" ["endmqm", "-w", defaultMetricQMName] (some 2)]

/-- Every call succeeds; every scrape returns the one sample `queue_depth` with
the single label `instance`. -/
def unvalidatedEnv : Env := fun _ => { happyOutcome with metrics := [exampleLabelled] }

/-- A sample with two labels. -/
def twoLabels : MetricSample :=
  { Key := goString "a_count",
    Labels := [(goString "qmgr", goString "qm1"), (goString "instance", goString "i1")] }

/-- Another key, the same label names visited in the other order, other values. -/
def twoLabelsSwapped : MetricSample :=
  { Key := goString "b_total",
    Labels := [(goString "instance", goString "i2"), (goString "qmgr", goString "qm2")] }

/-- The approved suffixes of the spec's example. -/
def exampleSuffixes : List GoString := [goString "seconds", goString "count"]

end mqmetric

/-! ## Theorems -/

namespace chkmqready

/-- C1: the readiness check exits with code 0 exactly when the flag is true, the
flag query returned no error and the dial to 127.0.0.1:1414 succeeded, and with
code 1 in every other case; no other exit code occurs. -/
theorem main_exitCode (w : World) :
    (main w).exitCode =
      (if w.readyCheck.1 = true ∧ w.readyCheck.2 = none ∧ dialSucceeds w = true then 0 else 1) ∧
    ((main w).exitCode = 0 ↔
      (w.readyCheck.1 = true ∧ w.readyCheck.2 = none ∧ dialSucceeds w = true)) ∧
    ((main w).exitCode = 0 ∨ (main w).exitCode = 1) := by
  obtain ⟨⟨r, err⟩, dial, n⟩ := w
  cases r <;> cases err <;> cases hd : dial "tcp" "127.0.0.1:1414" <;>
    simp [main, dialSucceeds, hd]

/-- C2: when the flag query returns false or an error (even with a true flag),
the check exits with 1 and its only effect is the flag query: no dial is
attempted, whatever the network would answer. -/
theorem main_short_circuit (w : World)
    (h : w.readyCheck.1 = false ∨ w.readyCheck.2 ≠ none) :
    (main w).exitCode = 1 ∧ (main w).trace = [Effect.readyCheck] ∧
      ∀ e ∈ (main w).trace, e.isDial = false := by
  obtain ⟨⟨r, err⟩, dial, n⟩ := w
  cases r <;> cases err <;> simp_all [main, Effect.isDial]

/-- C2 at a world whose flag query reports true together with an error while
the listener is up. -/
theorem main_short_circuit_witness :
    (erroredWorld.readyCheck.1 = false ∨ erroredWorld.readyCheck.2 ≠ none) ∧
      ((main erroredWorld).exitCode = 1 ∧ (main erroredWorld).trace = [Effect.readyCheck] ∧
        ∀ e ∈ (main erroredWorld).trace, e.isDial = false) :=
  ⟨Or.inr (by decide), main_short_circuit erroredWorld (Or.inr (by decide))⟩

/-- C8: two runs that see the same answer of the flag query and the same outcome
of the dial to 127.0.0.1:1414 end the same way (exit code and effects), whatever
else differs between the two worlds. -/
theorem main_deterministic (w1 w2 : World) (hr : w1.readyCheck = w2.readyCheck)
    (hd : w1.dial "tcp" "127.0.0.1:1414" = w2.dial "tcp" "127.0.0.1:1414") :
    main w1 = main w2 := by
  obtain ⟨rc1, dial1, n1⟩ := w1
  obtain ⟨rc2, dial2, n2⟩ := w2
  simp only at hr hd
  subst hr
  simp only [main, hd]

/-- C8 at two worlds that differ in the other addresses and in the number of
earlier runs. -/
theorem main_deterministic_witness :
    readyWorld.readyCheck = readyWorldLater.readyCheck ∧
      readyWorld.dial "tcp" "127.0.0.1:1414" = readyWorldLater.dial "tcp" "127.0.0.1:1414" ∧
      main readyWorld = main readyWorldLater :=
  ⟨rfl, by simp [readyWorld, readyWorldLater],
    main_deterministic readyWorld readyWorldLater rfl (by simp [readyWorld, readyWorldLater])⟩

/-- C9: every run performs one of three effect sequences: the flag query alone
(exit 1); the flag query and one failed dial to 127.0.0.1:1414 (exit 1); the flag
query, one successful dial to 127.0.0.1:1414 and one close of that connection
(exit 0). So there is at most one dial, and nothing is written or read. -/
theorem main_trace (w : World) :
    (((main w).trace = [Effect.readyCheck] ∧ (main w).exitCode = 1) ∨
     ((main w).trace = [Effect.readyCheck, Effect.dialFailed "tcp" "127.0.0.1:1414"] ∧
        (main w).exitCode = 1) ∨
     (∃ c, w.dial "tcp" "127.0.0.1:1414" = Except.ok c ∧
        (main w).trace = [Effect.readyCheck, Effect.dialOk "tcp" "127.0.0.1:1414" c,
          Effect.close c] ∧ (main w).exitCode = 0)) ∧
    ((main w).trace.filter Effect.isDial).length ≤ 1 ∧
    (∀ c, Effect.write c ∉ (main w).trace ∧ Effect.read c ∉ (main w).trace) := by
  obtain ⟨⟨r, err⟩, dial, n⟩ := w
  cases r <;> cases err <;> cases hd : dial "tcp" "127.0.0.1:1414" <;>
    simp [main, hd, Effect.isDial]

end chkmqready

namespace mqmetric

/-! ### The validators -/

theorem HasSuffix_iff (s suffix : GoString) : HasSuffix s suffix = true ↔ suffix <:+ s := by
  unfold HasSuffix
  rw [Bool.and_eq_true, decide_eq_true_eq, beq_iff_eq, List.suffix_iff_eq_drop]
  constructor
  · rintro ⟨_, h⟩
    exact h.symm
  · intro h
    refine ⟨?_, h.symm⟩
    have := congrArg List.length h
    rw [List.length_drop] at this
    omega

theorem suffixScan_true (key : GoString) (approved : List GoString) :
    suffixScan key approved true = true := by
  induction approved with
  | nil => rfl
  | cons e es ih => simp [suffixScan, ih]

theorem suffixScan_iff (key : GoString) (approved : List GoString) :
    suffixScan key approved false = true ↔ ∃ e ∈ approved, e <:+ key := by
  induction approved with
  | nil => simp [suffixScan]
  | cons e es ih =>
    by_cases h : HasSuffix key e = true
    · have h1 := (HasSuffix_iff key e).1 h
      simp [suffixScan, h, h1]
    · have h1 : ¬ e <:+ key := fun hs => h ((HasSuffix_iff key e).2 hs)
      simp [suffixScan, h, h1, ih]

theorem namesLoop_fields (approved : List GoString) (metrics : List MetricSample)
    (st : NamesState) :
    (namesLoop approved metrics st).badMetrics =
        st.badMetrics ++ (metrics.map (fun m => m.Key)).filter
          (fun k => decide (∀ e ∈ approved, ¬ e <:+ k)) ∧
    (namesLoop approved metrics st).okMetrics =
        st.okMetrics ++ (metrics.map (fun m => m.Key)).filter
          (fun k => decide (∃ e ∈ approved, e <:+ k)) ∧
    (namesLoop approved metrics st).output =
        st.output ++ ((metrics.map (fun m => m.Key)).filter
          (fun k => decide (∀ e ∈ approved, ¬ e <:+ k))).map LogLine.badSuffix ∧
    (namesLoop approved metrics st).failed =
        (st.failed || !((metrics.map (fun m => m.Key)).filter
          (fun k => decide (∀ e ∈ approved, ¬ e <:+ k))).isEmpty) := by
  induction metrics generalizing st with
  | nil => simp [namesLoop]
  | cons m rest ih =>
    by_cases h : ∃ e ∈ approved, e <:+ m.Key
    · have hs : suffixScan m.Key approved false = true := (suffixScan_iff _ _).2 h
      have hn : ¬ ∀ e ∈ approved, ¬ e <:+ m.Key := by
        intro hall
        obtain ⟨e, he, hsuf⟩ := h
        exact hall e he hsuf
      simp only [namesLoop, hs, Bool.not_true, Bool.false_eq_true, if_false, List.map_cons]
      rw [List.filter_cons_of_neg (by simpa using hn), List.filter_cons_of_pos (by simpa using h)]
      obtain ⟨h1, h2, h3, h4⟩ := ih { st with okMetrics := st.okMetrics ++ [m.Key] }
      refine ⟨h1, ?_, h3, h4⟩
      rw [h2]
      simp
    · have hs : suffixScan m.Key approved false = false := by
        rw [← Bool.not_eq_true]
        exact fun hc => h ((suffixScan_iff _ _).1 hc)
      have hn : ∀ e ∈ approved, ¬ e <:+ m.Key := fun e he hsuf => h ⟨e, he, hsuf⟩
      simp only [namesLoop, hs, Bool.not_false, if_true, List.map_cons]
      rw [List.filter_cons_of_pos (by simpa using hn), List.filter_cons_of_neg (by simpa using h)]
      obtain ⟨h1, h2, h3, h4⟩ := ih
        { st with output := st.output ++ [LogLine.badSuffix m.Key],
                  badMetrics := st.badMetrics ++ [m.Key], failed := true }
      refine ⟨?_, h2, ?_, ?_⟩
      · rw [h1]; simp
      · rw [h3]; simp
      · rw [h4]; simp

/-- C3: the loop of `TestMetricNames` puts into `badMetrics` exactly the keys that
end with none of the approved suffixes, one entry per offending sample and in
input order, and into `okMetrics` the other keys in input order; it logs one
line per offending key; the test is marked failed after the loop exactly when
it was before or `badMetrics` is not empty, so the loop itself marks it exactly
when `badMetrics` is not empty. On the keys `request_seconds`, `queue_depth`
with the suffixes `seconds`, `count` it flags exactly `queue_depth`. -/
theorem namesLoop_spec (approved : List GoString) (metrics : List MetricSample)
    (failed : Bool) (output : List LogLine) :
    (namesLoop approved metrics (namesInit failed output)).badMetrics =
        (metrics.map (fun m => m.Key)).filter (fun k => decide (∀ e ∈ approved, ¬ e <:+ k)) ∧
    (namesLoop approved metrics (namesInit failed output)).okMetrics =
        (metrics.map (fun m => m.Key)).filter (fun k => decide (∃ e ∈ approved, e <:+ k)) ∧
    (namesLoop approved metrics (namesInit failed output)).output =
        output ++ (namesLoop approved metrics (namesInit failed output)).badMetrics.map
          LogLine.badSuffix ∧
    (namesLoop approved metrics (namesInit failed output)).failed =
        (failed || !(namesLoop approved metrics (namesInit failed output)).badMetrics.isEmpty) ∧
    ((namesLoop approved metrics (namesInit false output)).failed = true ↔
        (namesLoop approved metrics (namesInit false output)).badMetrics ≠ []) ∧
    (namesLoop exampleSuffixes exampleNames (namesInit false [])).badMetrics =
        [goString "queue_depth"] ∧
    (namesLoop exampleSuffixes exampleNames (namesInit false [])).okMetrics =
        [goString "request_seconds"] := by
  obtain ⟨h1, h2, h3, h4⟩ := namesLoop_fields approved metrics (namesInit failed output)
  obtain ⟨g1, _, _, g4⟩ := namesLoop_fields approved metrics (namesInit false output)
  have e1 : ∀ f o, (namesInit f o).badMetrics = [] := fun _ _ => rfl
  have e2 : ∀ f o, (namesInit f o).okMetrics = [] := fun _ _ => rfl
  have e3 : ∀ f o, (namesInit f o).output = o := fun _ _ => rfl
  have e4 : ∀ f o, (namesInit f o).failed = f := fun _ _ => rfl
  simp only [e1, e2, e3, e4, List.nil_append] at h1 h2 h3 h4 g1 g4
  refine ⟨h1, h2, ?_, ?_, ?_, by decide, by decide⟩
  · rw [h3, h1]
  · rw [h4, h1]
  · rw [g4, g1]
    simp [List.isEmpty_iff]

theorem requiredScan_true (key : GoString) (required : List GoString) :
    requiredScan key required true = true := by
  induction required with
  | nil => rfl
  | cons e es ih => simp [requiredScan, ih]

theorem requiredScan_iff (key : GoString) (required : List GoString) :
    requiredScan key required false = true ↔ key ∈ required := by
  induction required with
  | nil => simp [requiredScan]
  | cons e es ih =>
    by_cases h : key = e
    · simp [requiredScan, h]
    · simp [requiredScan, h, ih]

theorem labelScan_iff (required : List GoString) (labels : List (GoString × GoString)) :
    labelScan required labels false = true ↔ ∃ k ∈ labels.map Prod.fst, k ∈ required := by
  induction labels with
  | nil => simp [labelScan]
  | cons p rest ih =>
    obtain ⟨key, val⟩ := p
    by_cases h : key ∈ required
    · have hs := (requiredScan_iff key required).2 h
      simp [labelScan, hs, h]
    · have hs : requiredScan key required false = false := by
        rw [← Bool.not_eq_true]
        exact fun hc => h ((requiredScan_iff key required).1 hc)
      simp only [labelScan, hs, Bool.false_eq_true, if_false, ih]
      simp [h]

theorem labelFound_iff (required : List GoString) (m : MetricSample) :
    labelFound required m = true ↔ ∃ k ∈ m.labelNames, k ∈ required :=
  labelScan_iff required m.Labels

theorem labelsLoop_fields (required : List GoString) (metrics : List MetricSample)
    (st : LabelsState) :
    (labelsLoop required metrics st).output =
        st.output ++ (metrics.filter (fun m => decide (∀ k ∈ m.labelNames, k ∉ required))).map
          (fun m => LogLine.missingLabel m.Key m.Labels required) ∧
    (labelsLoop required metrics st).failed =
        (st.failed || !(metrics.filter
          (fun m => decide (∀ k ∈ m.labelNames, k ∉ required))).isEmpty) := by
  induction metrics generalizing st with
  | nil => simp [labelsLoop]
  | cons m rest ih =>
    by_cases h : ∃ k ∈ m.labelNames, k ∈ required
    · have hf : labelFound required m = true := (labelFound_iff _ _).2 h
      have hn : ¬ ∀ k ∈ m.labelNames, k ∉ required := by
        intro hall
        obtain ⟨k, hk, hr⟩ := h
        exact hall k hk hr
      simp only [labelsLoop, hf, Bool.not_true, Bool.false_eq_true, if_false]
      rw [List.filter_cons_of_neg (by simpa using hn)]
      exact ih st
    · have hf : labelFound required m = false := by
        rw [← Bool.not_eq_true]
        exact fun hc => h ((labelFound_iff _ _).1 hc)
      have hn : ∀ k ∈ m.labelNames, k ∉ required := fun k hk hr => h ⟨k, hk, hr⟩
      simp only [labelsLoop, hf, Bool.not_false, if_true]
      rw [List.filter_cons_of_pos (by simpa using hn)]
      obtain ⟨h1, h2⟩ := ih
        { failed := true,
          output := st.output ++ [LogLine.missingLabel m.Key m.Labels required] }
      constructor
      · rw [h1]; simp
      · rw [h2]; simp

/-- C4: the loop of `TestMetricLabels` finds a sample in order exactly when one
of its label names is a member of the required list, and it reports (one
`t.Errorf` line each, in input order) exactly the samples none of whose label
names is required; the test is marked failed after the loop exactly when it was
before or some sample was reported. The sample with the one label `instance`
is reported for the required list `qmgr`. -/
theorem labelsLoop_spec (required : List GoString) (metrics : List MetricSample)
    (failed : Bool) (output : List LogLine) :
    (∀ m : MetricSample, labelFound required m = true ↔ ∃ k ∈ m.labelNames, k ∈ required) ∧
    (labelsLoop required metrics { failed := failed, output := output }).output =
        output ++ (metrics.filter (fun m => decide (∀ k ∈ m.labelNames, k ∉ required))).map
          (fun m => LogLine.missingLabel m.Key m.Labels required) ∧
    (labelsLoop required metrics { failed := failed, output := output }).failed =
        (failed || !(metrics.filter
          (fun m => decide (∀ k ∈ m.labelNames, k ∉ required))).isEmpty) ∧
    labelFound requiredLabels exampleLabelled = false ∧
    (labelsLoop requiredLabels [exampleLabelled] { failed := false, output := [] }).output =
        [LogLine.missingLabel exampleLabelled.Key exampleLabelled.Labels requiredLabels] := by
  obtain ⟨h1, h2⟩ := labelsLoop_fields required metrics { failed := failed, output := output }
  exact ⟨labelFound_iff required, h1, h2, by decide, by decide⟩

/-- C10: the verdict of the label loop on a sample depends only on the set of
its label names: two samples with the same set of label names get the same
verdict, whatever their keys, their label values and the order in which their
labels are visited. A sample without labels is never found in order, and with
an empty required list no sample is. -/
theorem labelFound_names_only (required : List GoString) (m1 m2 : MetricSample)
    (h : ∀ k, k ∈ m1.labelNames ↔ k ∈ m2.labelNames) :
    labelFound required m1 = labelFound required m2 ∧
    labelFound required { Key := m1.Key, Labels := [] } = false ∧
    labelFound [] m1 = false := by
  refine ⟨?_, rfl, ?_⟩
  · rw [Bool.eq_iff_iff, labelFound_iff, labelFound_iff]
    constructor
    · rintro ⟨k, hk, hr⟩
      exact ⟨k, (h k).1 hk, hr⟩
    · rintro ⟨k, hk, hr⟩
      exact ⟨k, (h k).2 hk, hr⟩
  · rw [← Bool.not_eq_true, labelFound_iff]
    simp

/-- C10 at two samples with other keys and values whose labels `qmgr` and
`instance` are visited in opposite orders. -/
theorem labelFound_names_only_witness :
    (∀ k, k ∈ twoLabels.labelNames ↔ k ∈ twoLabelsSwapped.labelNames) ∧
      (labelFound requiredLabels twoLabels = labelFound requiredLabels twoLabelsSwapped ∧
       labelFound requiredLabels { Key := twoLabels.Key, Labels := [] } = false ∧
       labelFound [] twoLabels = false) :=
  ⟨fun k => by simp [MetricSample.labelNames, twoLabels, twoLabelsSwapped, or_comm],
   labelFound_names_only requiredLabels twoLabels twoLabelsSwapped
     (fun k => by simp [MetricSample.labelNames, twoLabels, twoLabelsSwapped, or_comm])⟩

end mqmetric

namespace mqmetric

/-! ### Stepping through a test function -/

theorem runTest_eq (body : TestM Unit) (env : Env) :
    runTest body env = after body env TState.init (fun _ s => unwind env s) := by
  unfold runTest after
  cases body env TState.init <;> rfl

theorem after_bind {α β : Type} (m : TestM α) (f : α → TestM β) (env : Env) (s : TState)
    (k : β → TState → TState) :
    after (m >>= f) env s k = after m env s (fun a s1 => after (f a) env s1 k) := by
  show (match (match m env s with
      | Step.ret a s1 => f a env s1
      | Step.goexit s1 => Step.goexit s1) with
    | Step.ret a s1 => k a s1
    | Step.goexit s1 => unwind env s1) = _
  unfold after
  cases m env s <;> rfl

theorem after_pure {α : Type} (a : α) (env : Env) (s : TState) (k : α → TState → TState) :
    after (pure a) env s k = k a s := rfl

theorem after_forN_zero (b : TestM Unit) (env : Env) (s : TState) (k : Unit → TState → TState) :
    after (forN 0 b) env s k = k () s := rfl

theorem after_forN_succ (n : Nat) (b : TestM Unit) (env : Env) (s : TState)
    (k : Unit → TState → TState) :
    after (forN (n + 1) b) env s k = after b env s (fun _ s1 => after (forN n b) env s1 k) := by
  show after (b >>= fun _ => forN n b) env s k = _
  rw [after_bind]

theorem step_ite {α : Type} (P : TState → Prop) (c : Prop) [Decidable c] (m1 m2 : TestM α)
    (env : Env) (s : TState) (k : α → TState → TState)
    (h1 : c → P (after m1 env s k)) (h2 : ¬ c → P (after m2 env s k)) :
    P (after (if c then m1 else m2) env s k) := by
  by_cases h : c
  · rw [if_pos h]; exact h1 h
  · rw [if_neg h]; exact h2 h

theorem step_helper {α : Type} (P : TState → Prop) (ab : Nat → Event)
    (re : Nat → Outcome → Event) (v : Nat → Outcome → α) (env : Env) (f : Bool)
    (o : List LogLine) (c : Nat) (tr : List Event) (d : List Deferred)
    (k : α → TState → TState)
    (hab : (env c).aborts = true → P (unwind env
      { failed := true, output := o, calls := c + 1, trace := tr ++ [ab c], deferred := d }))
    (hre : (env c).aborts = false → P (k (v c (env c))
      { failed := f || (env c).fails, output := o, calls := c + 1,
        trace := tr ++ [re c (env c)], deferred := d })) :
    P (after (helper ab re v) env
      { failed := f, output := o, calls := c, trace := tr, deferred := d } k) := by
  unfold after helper
  by_cases h : (env c).aborts = true
  · simpa [h] using hab h
  · simp only [Bool.not_eq_true] at h
    simpa [h] using hre h

theorem after_tParallel (env : Env) (s : TState) (k : Unit → TState → TState) :
    after tParallel env s k = k () { s with trace := s.trace ++ [Event.parallel] } := rfl

theorem after_tLog (l : LogLine) (env : Env) (s : TState) (k : Unit → TState → TState) :
    after (tLog l) env s k = k () { s with output := s.output ++ [l] } := rfl

theorem after_tFail (env : Env) (s : TState) (k : Unit → TState → TState) :
    after tFail env s k = k () { s with failed := true } := rfl

theorem after_tFailNow (env : Env) (s : TState) (k : Unit → TState → TState) :
    after tFailNow env s k = unwind env { s with failed := true } := rfl

theorem after_tError (l : LogLine) (env : Env) (s : TState) (k : Unit → TState → TState) :
    after (tError l) env s k = k () { s with output := s.output ++ [l], failed := true } := rfl

theorem after_tFatal (l : LogLine) (env : Env) (s : TState) (k : Unit → TState → TState) :
    after (tFatal l) env s k =
      unwind env { s with output := s.output ++ [l], failed := true } := rfl

theorem after_NewEnvClient (env : Env) (s : TState) (k : Option String → TState → TState) :
    after NewEnvClient env s k = k (env s.calls).err
      { s with calls := s.calls + 1,
               trace := s.trace ++ [Event.newEnvClient (env s.calls).err] } := rfl

theorem after_defer (d : Deferred) (env : Env) (s : TState) (k : Unit → TState → TState) :
    after (defer d) env s k = k () { s with deferred := d :: s.deferred } := rfl

theorem after_lenLE0 (c : Nat) (ms : List MetricSample) (env : Env) (s : TState)
    (k : Bool → TState → TState) :
    after (lenLE0 { call := c, samples := ms }) env s k = k (decide (ms.length ≤ 0))
      { s with trace := s.trace ++ [Event.lenCheck c ms.length] } := rfl

theorem after_sleep (n : Nat) (env : Env) (s : TState) (k : Unit → TState → TState) :
    after (sleep n) env s k = k () { s with trace := s.trace ++ [Event.sleep n] } := rfl

theorem after_namesLoopM (ap : List GoString) (c : Nat) (ms : List MetricSample) (env : Env)
    (s : TState) (k : NamesState → TState → TState) :
    after (namesLoopM ap { call := c, samples := ms }) env s k =
      k (namesLoop ap ms (namesInit s.failed s.output))
        { s with failed := (namesLoop ap ms (namesInit s.failed s.output)).failed,
                 output := (namesLoop ap ms (namesInit s.failed s.output)).output,
                 trace := s.trace ++ [Event.validate c] } := rfl

theorem after_labelsLoopM (rq : List GoString) (c : Nat) (ms : List MetricSample) (env : Env)
    (s : TState) (k : Unit → TState → TState) :
    after (labelsLoopM rq { call := c, samples := ms }) env s k =
      k () { s with
        failed := (labelsLoop rq ms { failed := s.failed, output := s.output }).failed,
        output := (labelsLoop rq ms { failed := s.failed, output := s.output }).output,
        trace := s.trace ++ [Event.validate c] } := rfl

theorem unwind_nil (env : Env) (f : Bool) (o : List LogLine) (c : Nat) (tr : List Event) :
    unwind env { failed := f, output := o, calls := c, trace := tr, deferred := [] } =
      { failed := f, output := o, calls := c, trace := tr, deferred := [] } := rfl

theorem unwind_clean (env : Env) (f : Bool) (o : List LogLine) (c : Nat) (tr : List Event)
    (id : ContainerID) :
    unwind env { failed := f, output := o, calls := c, trace := tr,
                 deferred := [Deferred.cleanContainer id] } =
      { failed := f || (env c).fails, output := o, calls := c + 1,
        trace := tr ++ [Event.cleanContainer id], deferred := [] } := rfl

set_option linter.unusedTactic false
set_option linter.unreachableTactic false
set_option linter.unnecessarySeqFocus false
set_option maxRecDepth 8000
set_option maxHeartbeats 4000000

/-- The trace checkers accept every run of `TestGoldenPathMetric`. -/
theorem shape_TestGoldenPathMetric (env : Env) : ShapeOK (runTest TestGoldenPathMetric env) := by
  rw [runTest_eq]
  simp only [TestGoldenPathMetric, after_bind, after_pure, runContainerWithPorts, getMetricPort,
    waitForMetricReady, getMetrics, stopContainer, startContainer, execContainer, TState.init]
  repeat (first
    | ((first
         | rw [after_forN_succ] | rw [after_forN_zero] | rw [after_tParallel]
         | rw [after_NewEnvClient] | rw [after_defer] | rw [after_sleep] | rw [after_lenLE0]
         | rw [after_tLog] | rw [after_tFail] | rw [after_tError] | rw [after_tFatal]
         | rw [after_tFailNow] | rw [after_namesLoopM] | rw [after_labelsLoopM]);
       (try simp only [after_bind, after_pure]);
       (try dsimp only [List.cons_append, List.nil_append, Nat.zero_add, Nat.reduceAdd]))
    | ((with_reducible refine step_helper _ _ _ _ _ _ _ _ _ _ _ (fun hab => ?_) (fun hre => ?_));
       (focus ((first | rw [unwind_clean] | rw [unwind_nil]); exact ⟨rfl, rfl, by simp [cleanedAfterCreate, Event.isCleanOf]⟩; done));
       (try dsimp only [List.cons_append, List.nil_append, Nat.zero_add, Nat.reduceAdd]))
    | ((with_reducible refine step_ite _ _ _ _ _ _ _ (fun hc => ?_) (fun hc => ?_)) <;>
       (try simp only [after_bind, after_pure]))
    | focus ((first | rw [unwind_clean] | rw [unwind_nil]); exact ⟨rfl, rfl, by simp [cleanedAfterCreate, Event.isCleanOf]⟩; done))

/-- The trace checkers accept every run of `TestMetricNames`. -/
theorem shape_TestMetricNames (env : Env) : ShapeOK (runTest TestMetricNames env) := by
  rw [runTest_eq]
  simp only [TestMetricNames, after_bind, after_pure, runContainerWithPorts, getMetricPort,
    waitForMetricReady, getMetrics, stopContainer, startContainer, execContainer, TState.init]
  repeat (first
    | ((first
         | rw [after_forN_succ] | rw [after_forN_zero] | rw [after_tParallel]
         | rw [after_NewEnvClient] | rw [after_defer] | rw [after_sleep] | rw [after_lenLE0]
         | rw [after_tLog] | rw [after_tFail] | rw [after_tError] | rw [after_tFatal]
         | rw [after_tFailNow] | rw [after_namesLoopM] | rw [after_labelsLoopM]);
       (try simp only [after_bind, after_pure]);
       (try dsimp only [List.cons_append, List.nil_append, Nat.zero_add, Nat.reduceAdd]))
    | ((with_reducible refine step_helper _ _ _ _ _ _ _ _ _ _ _ (fun hab => ?_) (fun hre => ?_));
       (focus ((first | rw [unwind_clean] | rw [unwind_nil]); exact ⟨rfl, rfl, by simp [cleanedAfterCreate, Event.isCleanOf]⟩; done));
       (try dsimp only [List.cons_append, List.nil_append, Nat.zero_add, Nat.reduceAdd]))
    | ((with_reducible refine step_ite _ _ _ _ _ _ _ (fun hc => ?_) (fun hc => ?_)) <;>
       (try simp only [after_bind, after_pure]))
    | focus ((first | rw [unwind_clean] | rw [unwind_nil]); exact ⟨rfl, rfl, by simp [cleanedAfterCreate, Event.isCleanOf]⟩; done))

/-- The trace checkers accept every run of `TestMetricLabels`. -/
theorem shape_TestMetricLabels (env : Env) : ShapeOK (runTest TestMetricLabels env) := by
  rw [runTest_eq]
  simp only [TestMetricLabels, after_bind, after_pure, runContainerWithPorts, getMetricPort,
    waitForMetricReady, getMetrics, stopContainer, startContainer, execContainer, TState.init]
  repeat (first
    | ((first
         | rw [after_forN_succ] | rw [after_forN_zero] | rw [after_tParallel]
         | rw [after_NewEnvClient] | rw [after_defer] | rw [after_sleep] | rw [after_lenLE0]
         | rw [after_tLog] | rw [after_tFail] | rw [after_tError] | rw [after_tFatal]
         | rw [after_tFailNow] | rw [after_namesLoopM] | rw [after_labelsLoopM]);
       (try simp only [after_bind, after_pure]);
       (try dsimp only [List.cons_append, List.nil_append, Nat.zero_add, Nat.reduceAdd]))
    | ((with_reducible refine step_helper _ _ _ _ _ _ _ _ _ _ _ (fun hab => ?_) (fun hre => ?_));
       (focus ((first | rw [unwind_clean] | rw [unwind_nil]); exact ⟨rfl, rfl, by simp [cleanedAfterCreate, Event.isCleanOf]⟩; done));
       (try dsimp only [List.cons_append, List.nil_append, Nat.zero_add, Nat.reduceAdd]))
    | ((with_reducible refine step_ite _ _ _ _ _ _ _ (fun hc => ?_) (fun hc => ?_)) <;>
       (try simp only [after_bind, after_pure]))
    | focus ((first | rw [unwind_clean] | rw [unwind_nil]); exact ⟨rfl, rfl, by simp [cleanedAfterCreate, Event.isCleanOf]⟩; done))

/-- The trace checkers accept every run of `TestRapidFirePrometheus`. -/
theorem shape_TestRapidFirePrometheus (env : Env) : ShapeOK (runTest TestRapidFirePrometheus env) := by
  rw [runTest_eq]
  simp only [TestRapidFirePrometheus, after_bind, after_pure, runContainerWithPorts, getMetricPort,
    waitForMetricReady, getMetrics, stopContainer, startContainer, execContainer, TState.init]
  repeat (first
    | ((first
         | rw [after_forN_succ] | rw [after_forN_zero] | rw [after_tParallel]
         | rw [after_NewEnvClient] | rw [after_defer] | rw [after_sleep] | rw [after_lenLE0]
         | rw [after_tLog] | rw [after_tFail] | rw [after_tError] | rw [after_tFatal]
         | rw [after_tFailNow] | rw [after_namesLoopM] | rw [after_labelsLoopM]);
       (try simp only [after_bind, after_pure]);
       (try dsimp only [List.cons_append, List.nil_append, Nat.zero_add, Nat.reduceAdd]))
    | ((with_reducible refine step_helper _ _ _ _ _ _ _ _ _ _ _ (fun hab => ?_) (fun hre => ?_));
       (focus ((first | rw [unwind_clean] | rw [unwind_nil]); exact ⟨rfl, rfl, by simp [cleanedAfterCreate, Event.isCleanOf]⟩; done));
       (try dsimp only [List.cons_append, List.nil_append, Nat.zero_add, Nat.reduceAdd]))
    | ((with_reducible refine step_ite _ _ _ _ _ _ _ (fun hc => ?_) (fun hc => ?_)) <;>
       (try simp only [after_bind, after_pure]))
    | focus ((first | rw [unwind_clean] | rw [unwind_nil]); exact ⟨rfl, rfl, by simp [cleanedAfterCreate, Event.isCleanOf]⟩; done))

/-- The trace checkers accept every run of `TestSlowPrometheus`. -/
theorem shape_TestSlowPrometheus (env : Env) : ShapeOK (runTest TestSlowPrometheus env) := by
  rw [runTest_eq]
  simp only [TestSlowPrometheus, after_bind, after_pure, runContainerWithPorts, getMetricPort,
    waitForMetricReady, getMetrics, stopContainer, startContainer, execContainer, TState.init]
  repeat (first
    | ((first
         | rw [after_forN_succ] | rw [after_forN_zero] | rw [after_tParallel]
         | rw [after_NewEnvClient] | rw [after_defer] | rw [after_sleep] | rw [after_lenLE0]
         | rw [after_tLog] | rw [after_tFail] | rw [after_tError] | rw [after_tFatal]
         | rw [after_tFailNow] | rw [after_namesLoopM] | rw [after_labelsLoopM]);
       (try simp only [after_bind, after_pure]);
       (try dsimp only [List.cons_append, List.nil_append, Nat.zero_add, Nat.reduceAdd]))
    | ((with_reducible refine step_helper _ _ _ _ _ _ _ _ _ _ _ (fun hab => ?_) (fun hre => ?_));
       (focus ((first | rw [unwind_clean] | rw [unwind_nil]); exact ⟨rfl, rfl, by simp [cleanedAfterCreate, Event.isCleanOf]⟩; done));
       (try dsimp only [List.cons_append, List.nil_append, Nat.zero_add, Nat.reduceAdd]))
    | ((with_reducible refine step_ite _ _ _ _ _ _ _ (fun hc => ?_) (fun hc => ?_)) <;>
       (try simp only [after_bind, after_pure]))
    | focus ((first | rw [unwind_clean] | rw [unwind_nil]); exact ⟨rfl, rfl, by simp [cleanedAfterCreate, Event.isCleanOf]⟩; done))

/-- The trace checkers accept every run of `TestContainerRestart`. -/
theorem shape_TestContainerRestart (env : Env) : ShapeOK (runTest TestContainerRestart env) := by
  rw [runTest_eq]
  simp only [TestContainerRestart, after_bind, after_pure, runContainerWithPorts, getMetricPort,
    waitForMetricReady, getMetrics, stopContainer, startContainer, execContainer, TState.init]
  repeat (first
    | ((first
         | rw [after_forN_succ] | rw [after_forN_zero] | rw [after_tParallel]
         | rw [after_NewEnvClient] | rw [after_defer] | rw [after_sleep] | rw [after_lenLE0]
         | rw [after_tLog] | rw [after_tFail] | rw [after_tError] | rw [after_tFatal]
         | rw [after_tFailNow] | rw [after_namesLoopM] | rw [after_labelsLoopM]);
       (try simp only [after_bind, after_pure]);
       (try dsimp only [List.cons_append, List.nil_append, Nat.zero_add, Nat.reduceAdd]))
    | ((with_reducible refine step_helper _ _ _ _ _ _ _ _ _ _ _ (fun hab => ?_) (fun hre => ?_));
       (focus ((first | rw [unwind_clean] | rw [unwind_nil]); exact ⟨rfl, rfl, by simp [cleanedAfterCreate, Event.isCleanOf]⟩; done));
       (try dsimp only [List.cons_append, List.nil_append, Nat.zero_add, Nat.reduceAdd]))
    | ((with_reducible refine step_ite _ _ _ _ _ _ _ (fun hc => ?_) (fun hc => ?_)) <;>
       (try simp only [after_bind, after_pure]))
    | focus ((first | rw [unwind_clean] | rw [unwind_nil]); exact ⟨rfl, rfl, by simp [cleanedAfterCreate, Event.isCleanOf]⟩; done))

/-- The trace checkers accept every run of `TestQMRestart`. -/
theorem shape_TestQMRestart (env : Env) : ShapeOK (runTest TestQMRestart env) := by
  rw [runTest_eq]
  simp only [TestQMRestart, after_bind, after_pure, runContainerWithPorts, getMetricPort,
    waitForMetricReady, getMetrics, stopContainer, startContainer, execContainer, TState.init]
  repeat (first
    | ((first
         | rw [after_forN_succ] | rw [after_forN_zero] | rw [after_tParallel]
         | rw [after_NewEnvClient] | rw [after_defer] | rw [after_sleep] | rw [after_lenLE0]
         | rw [after_tLog] | rw [after_tFail] | rw [after_tError] | rw [after_tFatal]
         | rw [after_tFailNow] | rw [after_namesLoopM] | rw [after_labelsLoopM]);
       (try simp only [after_bind, after_pure]);
       (try dsimp only [List.cons_append, List.nil_append, Nat.zero_add, Nat.reduceAdd]))
    | ((with_reducible refine step_helper _ _ _ _ _ _ _ _ _ _ _ (fun hab => ?_) (fun hre => ?_));
       (focus ((first | rw [unwind_clean] | rw [unwind_nil]); exact ⟨rfl, rfl, by simp [cleanedAfterCreate, Event.isCleanOf]⟩; done));
       (try dsimp only [List.cons_append, List.nil_append, Nat.zero_add, Nat.reduceAdd]))
    | ((with_reducible refine step_ite _ _ _ _ _ _ _ (fun hc => ?_) (fun hc => ?_)) <;>
       (try simp only [after_bind, after_pure]))
    | focus ((first | rw [unwind_clean] | rw [unwind_nil]); exact ⟨rfl, rfl, by simp [cleanedAfterCreate, Event.isCleanOf]⟩; done))

/-- A passing run of `TestContainerRestart` performed the restart sequence, and both tested scrapes had a sample. -/
theorem restart_TestContainerRestart (env : Env) : RestartOK env (runTest TestContainerRestart env) := by
  rw [runTest_eq]
  simp only [TestContainerRestart, after_bind, after_pure, runContainerWithPorts, getMetricPort,
    waitForMetricReady, getMetrics, stopContainer, startContainer, execContainer, TState.init]
  repeat (first
    | ((first
         | rw [after_forN_succ] | rw [after_forN_zero] | rw [after_tParallel]
         | rw [after_NewEnvClient] | rw [after_defer] | rw [after_sleep] | rw [after_lenLE0]
         | rw [after_tLog] | rw [after_tFail] | rw [after_tError] | rw [after_tFatal]
         | rw [after_tFailNow] | rw [after_namesLoopM] | rw [after_labelsLoopM]);
       (try simp only [after_bind, after_pure]);
       (try dsimp only [List.cons_append, List.nil_append, Nat.zero_add, Nat.reduceAdd]))
    | ((with_reducible refine step_helper _ _ _ _ _ _ _ _ _ _ _ (fun hab => ?_) (fun hre => ?_));
       (focus (simp [RestartOK, TState.passed, unwind_clean, unwind_nil, restartTrace] <;> simp_all; done));
       (try dsimp only [List.cons_append, List.nil_append, Nat.zero_add, Nat.reduceAdd]))
    | ((with_reducible refine step_ite _ _ _ _ _ _ _ (fun hc => ?_) (fun hc => ?_)) <;>
       (try simp only [after_bind, after_pure]))
    | focus (simp [RestartOK, TState.passed, unwind_clean, unwind_nil, restartTrace] <;> simp_all; done))

end mqmetric

namespace mqmetric

/-! ### From the checkers to statements about positions in a trace -/

theorem shape_scenarios (body : TestM Unit) (hb : body ∈ scenarios) (env : Env) :
    ShapeOK (runTest body env) := by
  simp only [scenarios, List.mem_cons, List.mem_singleton, List.not_mem_nil, or_false] at hb
  rcases hb with rfl | rfl | rfl | rfl | rfl | rfl | rfl | rfl | rfl
  · exact shape_TestGoldenPathMetric env
  · exact shape_TestMetricNames env
  · exact shape_TestMetricLabels env
  · exact shape_TestRapidFirePrometheus env
  · exact shape_TestSlowPrometheus env
  · exact shape_TestContainerRestart env
  · exact shape_TestQMRestart env
  · exact ⟨rfl, rfl, rfl⟩
  · exact ⟨rfl, rfl, rfl⟩

theorem discardLaw_tail (whole : List Event) (a : Event) (t : List Event)
    (h : discardLaw whole (a :: t) = true) : discardLaw whole t = true := by
  unfold discardLaw at h
  split at h
  · rename_i heq
    cases heq
  · simp only [Bool.and_eq_true] at h
    rename_i heq
    cases heq
    exact h.2
  · rename_i heq
    cases heq
    exact h

theorem discardLaw_sound (whole pre post : List Event) (port : Port)
    (h : discardLaw whole (pre ++ Event.waitForMetricReady port true :: post) = true) :
    afterWaitOK whole post = true := by
  induction pre with
  | nil =>
    simp only [List.nil_append, discardLaw, Bool.and_eq_true] at h
    exact h.1
  | cons a pre ih => exact ih (discardLaw_tail whole a _ h)

theorem settleOK_tail (slept : Nat) (a : Event) (t : List Event)
    (h : settleOK slept (a :: t) = true) :
    settleOK (slept + sleepTotal [a]) t = true := by
  cases a <;> simp_all [settleOK, sleepTotal]

theorem sleepTotal_cons (a : Event) (t : List Event) :
    sleepTotal (a :: t) = sleepTotal [a] + sleepTotal t := by
  cases a <;> simp [sleepTotal]

theorem settleOK_sound (mid : List Event) (slept : Nat) (port2 : Port) (c2 : Nat)
    (r2 : Option (List MetricSample)) (tl : List Event) (n : Nat)
    (h : settleOK slept (mid ++ Event.getMetrics port2 c2 r2 :: tl) = true)
    (hin : Event.lenCheck c2 n ∈ tl) : 15 ≤ slept + sleepTotal mid := by
  induction mid generalizing slept with
  | nil =>
    simp only [List.nil_append, settleOK, Bool.and_eq_true, Bool.or_eq_true, decide_eq_true_eq,
      Bool.not_eq_true', List.any_eq_false] at h
    rcases h.1 with h15 | hno
    · simpa [sleepTotal] using h15
    · have := hno _ hin
      simp [Event.isLenCheckOf] at this
  | cons a mid ih =>
    have h1 := ih (slept + sleepTotal [a]) (settleOK_tail slept a _ h)
    rw [sleepTotal_cons]
    omega

theorem afterWaitOK_spec (whole post : List Event) (h : afterWaitOK whole post = true) :
    ∃ port1 c r rest, post = Event.getMetrics port1 c r :: rest ∧
      (∀ e ∈ whole, e.subject ≠ some c) ∧
      (∀ mid port2 c2 r2 tl n, rest = mid ++ Event.getMetrics port2 c2 r2 :: tl →
        Event.lenCheck c2 n ∈ tl → 15 ≤ sleepTotal mid) := by
  unfold afterWaitOK at h
  split at h
  · rename_i port1 c r rest
    simp only [Bool.and_eq_true, neverInspected, List.all_eq_true, bne_iff_ne] at h
    refine ⟨port1, c, r, rest, rfl, h.1, ?_⟩
    intro mid port2 c2 r2 tl n hr hin
    have hs := h.2
    rw [hr] at hs
    simpa using settleOK_sound mid 0 port2 c2 r2 tl n hs hin
  · simp at h

theorem increasingFrom_sound (l : List Nat) (lo : Option Nat)
    (h : increasingFrom lo l = true) :
    (∀ b, lo = some b → ∀ x ∈ l, b < x) ∧ l.Pairwise (fun a b => a < b) := by
  induction l generalizing lo with
  | nil => simp
  | cons c rest ih =>
    have hrest : increasingFrom (some c) rest = true := by
      cases lo <;> simp_all [increasingFrom]
    obtain ⟨hlow, hpw⟩ := ih (some c) hrest
    refine ⟨?_, List.pairwise_cons.2 ⟨fun x hx => hlow c rfl x hx, hpw⟩⟩
    intro b hb x hx
    subst hb
    have hbc : b < c := by
      simp only [increasingFrom, Bool.and_eq_true, decide_eq_true_eq] at h
      exact h.1
    rcases List.mem_cons.1 hx with rfl | hx
    · exact hbc
    · exact Nat.lt_trans hbc (hlow c rfl x hx)

theorem cleanedAfterCreate_tail (a : Event) (t : List Event)
    (h : cleanedAfterCreate (a :: t) = true) : cleanedAfterCreate t = true := by
  unfold cleanedAfterCreate at h
  split at h
  · rename_i heq
    cases heq
  · simp only [Bool.and_eq_true] at h
    rename_i heq
    cases heq
    exact h.2
  · rename_i heq
    cases heq
    exact h

theorem cleanedAfterCreate_sound (pre post : List Event) (id : ContainerID)
    (h : cleanedAfterCreate (pre ++ Event.runContainerWithPorts (some id) :: post) = true) :
    ∃ mid, post = mid ++ [Event.cleanContainer id] := by
  induction pre with
  | nil =>
    simp only [List.nil_append, cleanedAfterCreate, Bool.and_eq_true] at h
    obtain ⟨hl, _⟩ := h
    cases hlast : post.getLast? with
    | none => simp [hlast] at hl
    | some e =>
      rw [hlast] at hl
      cases e <;> simp [Event.isCleanOf] at hl
      subst hl
      exact ⟨post.dropLast, (List.dropLast_append_getLast? _ hlast).symm⟩
  | cons a pre ih => exact ih (cleanedAfterCreate_tail a _ h)

theorem containerStatus_clean (id : ContainerID) (tr : List Event) :
    containerStatus id (tr ++ [Event.cleanContainer id]) = some ContainerStatus.removed := by
  simp [containerStatus, List.foldl_append, Event.onContainer]

end mqmetric

namespace mqmetric

/-! ### The scenarios -/

/-- C5, as the code has it: a run of `TestContainerRestart` passes only if it
performed exactly the restart sequence (start container, wait ready, discard
scrape, sleep 15 s, scrape, stop container, start container, port resolved
again, wait ready, discard scrape, sleep 15 s, scrape, cleanup), the scrapes it
tested for non-emptiness are the one before `stopContainer` (call 5) and the one
after `startContainer` (call 11), and each of the two returned at least one
sample. -/
theorem restart_pass_two_scrapes (env : Env)
    (h : (runTest TestContainerRestart env).passed = true) :
    (runTest TestContainerRestart env).trace =
        restartTrace (env 1).id (env 2).port (env 8).port (env 4).metrics (env 5).metrics
          (env 10).metrics (env 11).metrics ∧
      assertedScrapes (runTest TestContainerRestart env).trace =
        [(env 5).metrics, (env 11).metrics] ∧
      1 ≤ (env 5).metrics.length ∧ 1 ≤ (env 11).metrics.length := by
  obtain ⟨htr, h1, h2⟩ := restart_TestContainerRestart env h
  refine ⟨htr, ?_, List.length_pos.2 h1, List.length_pos.2 h2⟩
  rw [htr]
  rfl

/-- C5 amended, at the world in which every call succeeds. -/
theorem restart_pass_two_scrapes_witness :
    (runTest TestContainerRestart happyEnv).passed = true ∧
      ((runTest TestContainerRestart happyEnv).trace =
          restartTrace (happyEnv 1).id (happyEnv 2).port (happyEnv 8).port (happyEnv 4).metrics
            (happyEnv 5).metrics (happyEnv 10).metrics (happyEnv 11).metrics ∧
        assertedScrapes (runTest TestContainerRestart happyEnv).trace =
          [(happyEnv 5).metrics, (happyEnv 11).metrics] ∧
        1 ≤ (happyEnv 5).metrics.length ∧ 1 ≤ (happyEnv 11).metrics.length) :=
  ⟨by decide, restart_pass_two_scrapes happyEnv (by decide)⟩

/-- C5 as stated fails: in the world where both asserted scrapes return the one
sample `queue_depth` labelled `instance`, `TestContainerRestart` passes, although
that scrape fails the approved-suffix validator and the required-label
validator. -/
theorem restart_passes_unvalidated :
    (runTest TestContainerRestart unvalidatedEnv).passed = true ∧
      assertedScrapes (runTest TestContainerRestart unvalidatedEnv).trace =
        [[exampleLabelled], [exampleLabelled]] ∧
      suffixValid [exampleLabelled] = false ∧ labelValid [exampleLabelled] = false := by
  decide

/-- C6: in every run of every test function, a `waitForMetricReady` that
returned is followed at once by a `getMetrics` call whose result no effect of
the run asserts on (neither a `len(metrics) <= 0` test nor a validator loop has
it as subject), and every later scrape whose result is tested for non-emptiness
is taken when at least 15 seconds have been slept since that discard scrape.
Call numbers name scrapes: those of the scrapes of a run strictly increase. -/
theorem discard_scrape_law (body : TestM Unit) (hb : body ∈ scenarios) (env : Env)
    (pre post : List Event) (port : Port)
    (h : (runTest body env).trace = pre ++ Event.waitForMetricReady port true :: post) :
    ∃ port1 c r rest, post = Event.getMetrics port1 c r :: rest ∧
      (∀ e ∈ (runTest body env).trace, e.subject ≠ some c) ∧
      (∀ mid port2 c2 r2 tl n, rest = mid ++ Event.getMetrics port2 c2 r2 :: tl →
        Event.lenCheck c2 n ∈ tl → 15 ≤ sleepTotal mid) ∧
      (scrapeCalls (runTest body env).trace).Pairwise (fun a b => a < b) := by
  obtain ⟨hd, hi, _⟩ := shape_scenarios body hb env
  have hw : afterWaitOK (runTest body env).trace post = true := by
    apply discardLaw_sound (runTest body env).trace pre post port
    rw [← h]
    exact hd
  obtain ⟨port1, c, r, rest, hpost, hnever, hsettle⟩ := afterWaitOK_spec _ post hw
  exact ⟨port1, c, r, rest, hpost, hnever, hsettle, (increasingFrom_sound _ none hi).2⟩

/-- C6 at `TestGoldenPathMetric` in the world in which every call succeeds. -/
theorem discard_scrape_law_witness :
    TestGoldenPathMetric ∈ scenarios ∧
      (runTest TestGoldenPathMetric happyEnv).trace =
        goldenPre ++ Event.waitForMetricReady "32768" true :: goldenPost ∧
      ∃ port1 c r rest, goldenPost = Event.getMetrics port1 c r :: rest ∧
        (∀ e ∈ (runTest TestGoldenPathMetric happyEnv).trace, e.subject ≠ some c) ∧
        (∀ mid port2 c2 r2 tl n, rest = mid ++ Event.getMetrics port2 c2 r2 :: tl →
          Event.lenCheck c2 n ∈ tl → 15 ≤ sleepTotal mid) ∧
        (scrapeCalls (runTest TestGoldenPathMetric happyEnv).trace).Pairwise
          (fun a b => a < b) :=
  ⟨List.mem_cons_self _ _, by decide,
   discard_scrape_law TestGoldenPathMetric (List.mem_cons_self _ _) happyEnv goldenPre goldenPost
     "32768" (by decide)⟩

/-- C7: in every run of every test function, once `runContainerWithPorts` has
returned an id, the last effect of the run is the call of `cleanContainer` for
that id, however the test function was left (by returning, marked failed or not,
or through `t.FailNow` or `t.Fatal`, its own or a helper's), and the run leaves
that container stopped and removed. -/
theorem cleanup_guaranteed (body : TestM Unit) (hb : body ∈ scenarios) (env : Env)
    (pre post : List Event) (id : ContainerID)
    (h : (runTest body env).trace = pre ++ Event.runContainerWithPorts (some id) :: post) :
    (∃ mid, post = mid ++ [Event.cleanContainer id]) ∧
      containerStatus id (runTest body env).trace = some ContainerStatus.removed := by
  have hs := (shape_scenarios body hb env).2.2
  rw [h] at hs
  obtain ⟨mid, hmid⟩ := cleanedAfterCreate_sound pre post id hs
  refine ⟨⟨mid, hmid⟩, ?_⟩
  rw [h, hmid, ← List.cons_append, ← List.append_assoc]
  exact containerStatus_clean id _

/-- C7 at `TestQMRestart` in the world where `endmqm` returns exit code 2 and
the test leaves through `t.FailNow`. -/
theorem cleanup_guaranteed_witness :
    TestQMRestart ∈ scenarios ∧
      (runTest TestQMRestart endmqmFailsEnv).failed = true ∧
      (runTest TestQMRestart endmqmFailsEnv).trace =
        [Event.parallel, Event.newEnvClient none] ++
          Event.runContainerWithPorts (some "c1") ::
            (qmRestartMid ++ [Event.cleanContainer "c1"]) ∧
      ((∃ mid, qmRestartMid ++ [Event.cleanContainer "c1"] =
          mid ++ [Event.cleanContainer "c1"]) ∧
        containerStatus "c1" (runTest TestQMRestart endmqmFailsEnv).trace =
          some ContainerStatus.removed) :=
  ⟨by simp [scenarios], by decide, by decide,
   cleanup_guaranteed TestQMRestart (by simp [scenarios]) endmqmFailsEnv
     [Event.parallel, Event.newEnvClient none]
     (qmRestartMid ++ [Event.cleanContainer "c1"]) "c1" (by decide)⟩

end mqmetric
